import Mathlib

/-!
Verification of the AWS Cloud Cost Analyzer repository.

The repository has two components:
* `scripts/cloud_analyzer.py` — scans EC2 instances, RDS instances and S3
  buckets, computes per-resource estimated monthly cost and potential
  savings from flat rates, and emits one record per resource;
* `dashboard/dashboard.py` — loads the report CSV (from a local path or an
  upload), normalizes its schema, applies user filters, computes KPIs over
  the unfiltered dataset, and renders a sorted detail table plus a
  downloadable CSV of the filtered view.

Monetary amounts and metric values are modelled as exact rationals `ℚ`.
The Python source computes with IEEE-754 doubles; `round2` below models
Python's `round(x, 2)` as exact two-decimal rounding of the rational,
which agrees with the program wherever the double value is not adjacent
to a two-decimal rounding boundary (the case for every EC2/RDS value
here).  Where the double arithmetic itself decides the stored value —
the S3 records — the development also carries an explicit binary64
model: `fl` rounds a rational to the nearest double (round to nearest,
ties to even) and `round2F` is Python's `round(x, 2)` on doubles.
-/

/-- A parsed CSV cell as pandas sees it: a numeric value, a (non-numeric)
string, or a missing value (pandas `NaN`). -/
inductive Cell where
  | num (q : ℚ)
  | text (s : String)
  | null
deriving DecidableEq, Repr

/-- A raw tabular file as handed to `pd.read_csv`: a header row of column
names and data rows of cells, matched to the header positionally.  Rows
shorter than the header are padded with missing values by pandas; the model
reproduces that in `getCellD`. -/
structure RawTable where
  header : List String
  rows : List (List Cell)
deriving DecidableEq, Repr

/-- One row of the normalized dataset, restricted to the six expected
columns of the report (`expected` in `dashboard.py`).  The two monetary
columns are numeric after normalization (`pd.to_numeric(...).fillna(0.0)`),
the four others keep their parsed cell values. -/
structure Row where
  resourceID : Cell
  service : Cell
  resourceType : Cell
  usageMetric : Cell
  estimatedCost : ℚ
  potentialSavings : ℚ
deriving DecidableEq, Repr

/-- Look up the cell of column `name` in a data row: the first header
position carrying `name` (pandas keeps the first of duplicate labels),
`Cell.null` when the row is too short (pandas pads with `NaN`), and the
supplied default when the column is absent altogether (the value the
loaders backfill with `df[col] = ...`). -/
def getCellD : List String → List Cell → String → Cell → Cell
  | [], _, _, dflt => dflt
  | h :: hs, cells, name, dflt =>
    if h = name then (cells.head?).getD Cell.null
    else getCellD hs cells.tail name dflt

/-- Model of `pd.to_numeric(col, errors="coerce").fillna(0.0)` on one cell: numeric
values pass through, non-numeric strings and missing values become `0`. -/
def coerceNum : Cell → ℚ
  | Cell.num q => q
  | Cell.text _ => 0
  | Cell.null => 0

/-- The legacy-column rename of `load_csv_local`:
`df.rename(columns=...)` mapping the `*USD`-suffixed names. -/
def renameLegacy (h : String) : String :=
  if h = "EstimatedCostUSD" then "EstimatedCost"
  else if h = "PotentialSavingsUSD" then "PotentialSavings"
  else h

/-- Build one normalized row from a header and a data row: backfill the six
expected columns (numeric ones with `0`, text ones with `""`) and coerce
the two monetary columns to numbers. -/
def mkRow (header : List String) (cells : List Cell) : Row where
  resourceID := getCellD header cells "ResourceID" (Cell.text "")
  service := getCellD header cells "Service" (Cell.text "")
  resourceType := getCellD header cells "ResourceType" (Cell.text "")
  usageMetric := getCellD header cells "UsageMetric" (Cell.text "")
  estimatedCost := coerceNum (getCellD header cells "EstimatedCost" (Cell.num 0))
  potentialSavings := coerceNum (getCellD header cells "PotentialSavings" (Cell.num 0))

/-- Function `load_csv_local` of `dashboard.py`: read the CSV, rename the legacy
columns `EstimatedCostUSD`→`EstimatedCost` and
`PotentialSavingsUSD`→`PotentialSavings`, backfill missing expected
columns and coerce the monetary columns to numbers. -/
def load_csv_local (t : RawTable) : List Row :=
  t.rows.map (mkRow (t.header.map renameLegacy))

/-- Function `load_csv_upload` of `dashboard.py`: identical to `load_csv_local`
except that it performs no legacy-column rename. -/
def load_csv_upload (t : RawTable) : List Row :=
  t.rows.map (mkRow t.header)

/-- Python `str(...)` on one cell, as `f["ResourceID"].astype(str)` does:
missing values render as the string `"nan"`.  The digit rendering of
numeric cells is abstracted by `toString` on `ℚ`. -/
def cellToStr : Cell → String
  | Cell.text s => s
  | Cell.num q => toString q
  | Cell.null => "nan"

/-- One atom token of the modelled regex fragment: a literal character or
the `.` wildcard metacharacter. -/
inductive ReTok where
  | lit (c : Char)
  | wild
deriving DecidableEq, Repr

/-- A quantifier attached to a regex atom: exactly once, `*` (zero or
more), `+` (one or more) or `?` (zero or one). -/
inductive ReQuant where
  | one
  | star
  | plus
  | opt
deriving DecidableEq, Repr

/-- A quantified atom of a parsed search pattern. -/
structure ReAtom where
  tok : ReTok
  q : ReQuant
deriving DecidableEq, Repr

/-- Does an atom token match one character? -/
def tokMatches : ReTok → Char → Bool
  | ReTok.lit c, d => c = d
  | ReTok.wild, _ => true

/-- Match zero or more occurrences of token `t`, then the continuation
`k` on the rest, trying every split (backtracking `*`). -/
def matchStar (t : ReTok) (k : List Char → Bool) : List Char → Bool
  | [] => k []
  | c :: cs => k (c :: cs) || (tokMatches t c && matchStar t k cs)

/-- Does the atom list match a prefix of the character list? -/
def matchAtoms : List ReAtom → List Char → Bool
  | [], _ => true
  | a :: as, cs =>
    match a.q with
    | ReQuant.one =>
      match cs with
      | [] => false
      | c :: cs' => tokMatches a.tok c && matchAtoms as cs'
    | ReQuant.opt =>
      matchAtoms as cs ||
        (match cs with
         | [] => false
         | c :: cs' => tokMatches a.tok c && matchAtoms as cs')
    | ReQuant.star => matchStar a.tok (matchAtoms as) cs
    | ReQuant.plus =>
      match cs with
      | [] => false
      | c :: cs' => tokMatches a.tok c && matchStar a.tok (matchAtoms as) cs'

/-- Parse the search pattern into quantified atoms.  Modelled fragment of
Python `re`: literal characters, the `.` wildcard, the quantifiers `*`,
`+`, `?`, and backslash-escaped literals.  Character classes, groups,
alternation, anchors and brace repetition are outside the fragment, as
are patterns `re.compile` rejects. -/
def lexPattern : List Char → List ReAtom
  | [] => []
  | '\\' :: c :: '*' :: rest => ⟨ReTok.lit c, ReQuant.star⟩ :: lexPattern rest
  | '\\' :: c :: '+' :: rest => ⟨ReTok.lit c, ReQuant.plus⟩ :: lexPattern rest
  | '\\' :: c :: '?' :: rest => ⟨ReTok.lit c, ReQuant.opt⟩ :: lexPattern rest
  | '\\' :: c :: rest => ⟨ReTok.lit c, ReQuant.one⟩ :: lexPattern rest
  | '.' :: '*' :: rest => ⟨ReTok.wild, ReQuant.star⟩ :: lexPattern rest
  | '.' :: '+' :: rest => ⟨ReTok.wild, ReQuant.plus⟩ :: lexPattern rest
  | '.' :: '?' :: rest => ⟨ReTok.wild, ReQuant.opt⟩ :: lexPattern rest
  | '.' :: rest => ⟨ReTok.wild, ReQuant.one⟩ :: lexPattern rest
  | c :: '*' :: rest => ⟨ReTok.lit c, ReQuant.star⟩ :: lexPattern rest
  | c :: '+' :: rest => ⟨ReTok.lit c, ReQuant.plus⟩ :: lexPattern rest
  | c :: '?' :: rest => ⟨ReTok.lit c, ReQuant.opt⟩ :: lexPattern rest
  | c :: rest => ⟨ReTok.lit c, ReQuant.one⟩ :: lexPattern rest

/-- Model of `f["ResourceID"].astype(str).str.contains(search_id,
case=False, na=False)`: pandas' default `regex=True` makes the search
string a regular expression, searched at every start position of the
rendered string as `re.search` does, case-insensitively (`case=False`
sets `re.IGNORECASE`, modelled by lower-casing both sides). -/
def strContainsRe (s pat : String) : Bool :=
  ((s.data.map Char.toLower).tails).any
    (fun t => matchAtoms (lexPattern (pat.data.map Char.toLower)) t)

/-- The state of the four dashboard filter widgets: the service
multi-select, the savings-only checkbox, the minimum-savings slider and
the (already stripped) ResourceID search text. -/
structure FilterConfig where
  selectedServices : List Cell
  onlyIdle : Bool
  savingsFilter : ℚ
  searchId : String

/-- The filter pipeline of `dashboard.py`, applied in source order:
service membership, then (when the checkbox is on) savings > 0, then
(when the slider is above 0) savings ≥ threshold, then (when the search
text is non-empty) the case-insensitive regular-expression search of
`str.contains` on the rendered ResourceID. -/
def applyFilters (cfg : FilterConfig) (df : List Row) : List Row :=
  let f1 := df.filter (fun r => decide (r.service ∈ cfg.selectedServices))
  let f2 := if cfg.onlyIdle then
      f1.filter (fun r => decide (0 < r.potentialSavings)) else f1
  let f3 := if 0 < cfg.savingsFilter then
      f2.filter (fun r => decide (cfg.savingsFilter ≤ r.potentialSavings)) else f2
  if cfg.searchId ≠ "" then
    f3.filter (fun r => strContainsRe (cellToStr r.resourceID) cfg.searchId)
  else f3

/-- The option list of the service multi-select:
`sorted(df["Service"].dropna().unique().tolist())` — the distinct non-null
`Service` values.  The source additionally sorts the option labels for
display, which does not affect membership and is not modelled. -/
def serviceOptions (df : List Row) : List Cell :=
  ((df.map Row.service).filter (fun c => decide (c ≠ Cell.null))).dedup

/-- KPI `total_cost = df["EstimatedCost"].sum()`, over the unfiltered
dataset. -/
def total_cost (df : List Row) : ℚ :=
  (df.map Row.estimatedCost).sum

/-- KPI `total_savings = df["PotentialSavings"].sum()`, over the unfiltered
dataset. -/
def total_savings (df : List Row) : ℚ :=
  (df.map Row.potentialSavings).sum

/-- KPI `flagged_count = (df["PotentialSavings"] > 0).sum()`, over the
unfiltered dataset. -/
def flagged_count (df : List Row) : Nat :=
  (df.filter (fun r => decide (0 < r.potentialSavings))).length

/-- The order of the detail table: row `a` precedes row `b` when `a`'s
potential savings are at least `b`'s. -/
def savingsGE (a b : Row) : Prop :=
  b.potentialSavings ≤ a.potentialSavings

instance : DecidableRel savingsGE := fun a b =>
  inferInstanceAs (Decidable (b.potentialSavings ≤ a.potentialSavings))

/-- Model of `f.sort_values("PotentialSavings", ascending=False)`.  The source's
sort algorithm (numpy quicksort) is unspecified on ties; the model uses a
comparison sort over the same key and direction. -/
def sortBySavingsDesc (df : List Row) : List Row :=
  List.insertionSort savingsGE df

/-- Function `get_download_link`: serialize the dataframe as CSV text
(`df.to_csv(index=False)`), restricted to the six modelled columns. -/
def get_download_link (df : List Row) : String :=
  String.intercalate "\n"
    ("ResourceID,Service,ResourceType,UsageMetric,EstimatedCost,PotentialSavings" ::
      df.map (fun r => String.intercalate ","
        [cellToStr r.resourceID, cellToStr r.service, cellToStr r.resourceType,
         cellToStr r.usageMetric, toString r.estimatedCost, toString r.potentialSavings]))

/-- Everything the dashboard page derives from a loaded dataset and a
filter configuration: the three KPI values, the sorted detail table and
the downloadable CSV artifact. -/
structure DashboardOut where
  totalCost : ℚ
  totalSavings : ℚ
  flaggedCount : Nat
  tableRows : List Row
  downloadBytes : String

/-- The page pipeline of `dashboard.py` after a successful load: KPIs from
the unfiltered dataset `df`, the detail table as the filtered view sorted
by savings descending, and the download artifact as the CSV of exactly
that table. -/
def renderDashboard (df : List Row) (cfg : FilterConfig) : DashboardOut :=
  let f := applyFilters cfg df
  let f_sorted := sortBySavingsDesc f
  { totalCost := total_cost df
    totalSavings := total_savings df
    flaggedCount := flagged_count df
    tableRows := f_sorted
    downloadBytes := get_download_link f_sorted }

/-! ### Scanner (`scripts/cloud_analyzer.py`) -/

/-- Constant `EC2_COST_PER_HOUR = 0.023` (t2.micro approx). -/
def EC2_COST_PER_HOUR : ℚ := 23 / 1000

/-- Constant `RDS_COST_PER_HOUR = 0.041` (db.t3.micro approx). -/
def RDS_COST_PER_HOUR : ℚ := 41 / 1000

/-- Constant `S3_COST_PER_GB = 0.023` (Standard storage). -/
def S3_COST_PER_GB : ℚ := 23 / 1000

/-- Constant `HOURS_PER_MONTH = 730`. -/
def HOURS_PER_MONTH : ℚ := 730

/-- Python `round(x, 2)`, modelled as exact two-decimal rounding of the
rational.  This agrees with the program only when the double value of the
argument is not adjacent to a two-decimal rounding boundary — true of
every EC2/RDS value in this development (16.79 and 29.93 are exact), but
NOT of the S3 values, whose stored record fields are therefore treated by
the float-level `round2F` below. -/
def round2 (x : ℚ) : ℚ := (round (100 * x) : ℚ) / 100

/-- The average over the metric datapoints, with the scanner's fallback:
`avg_cpu = 0` when `metric["Datapoints"]` is empty, else the arithmetic
mean of the `Average` statistics. -/
def avgOfDatapoints (dps : List ℚ) : ℚ :=
  if dps.isEmpty then 0 else dps.sum / dps.length

/-- One record as the scanner emits it, with the legacy `*USD` column
names it writes to the report. -/
structure ScanRecord where
  resourceID : String
  service : String
  resourceType : String
  usageMetric : String
  estimatedCostUSD : ℚ
  potentialSavingsUSD : ℚ
deriving DecidableEq, Repr

/-- Label `f"CPU {avg_cpu:.2f}%"`; decimal digit rendering of the
two-decimal value is abstracted by `toString`. -/
def fmtCpu (q : ℚ) : String := "CPU " ++ toString (round2 q) ++ "%"

/-- Label `f"Size {size_gb:.2f} GB"`; decimal digit rendering of the
two-decimal value is abstracted by `toString`. -/
def fmtSize (q : ℚ) : String := "Size " ++ toString (round2 q) ++ " GB"

/-- One EC2 instance as the scanner sees it: its ID, its optional
`InstanceType` field, and the CPU-utilization datapoints returned by the
7-day CloudWatch query. -/
structure Ec2Instance where
  instanceId : String
  instanceType : Option String
  datapoints : List ℚ

/-- The body of the `analyze_ec2` loop for one instance: flat-rate monthly
cost, savings equal to the full cost when the average CPU is below 5%
(idle), both rounded to two decimals in the emitted record. -/
def analyze_ec2_instance (i : Ec2Instance) : ScanRecord :=
  let avg_cpu := avgOfDatapoints i.datapoints
  let est_cost := EC2_COST_PER_HOUR * HOURS_PER_MONTH
  let potential_saving := if avg_cpu < 5 then est_cost else 0
  { resourceID := i.instanceId
    service := "EC2"
    resourceType := i.instanceType.getD "unknown"
    usageMetric := fmtCpu avg_cpu
    estimatedCostUSD := round2 est_cost
    potentialSavingsUSD := round2 potential_saving }

/-- Function `analyze_ec2`: one record per instance (reservations flattened). -/
def analyze_ec2 (instances : List Ec2Instance) : List ScanRecord :=
  instances.map analyze_ec2_instance

/-- One RDS instance as the scanner sees it: its identifier, its optional
`DBInstanceClass` field, and the CPU-utilization datapoints. -/
structure RdsInstance where
  dbInstanceIdentifier : String
  dbInstanceClass : Option String
  datapoints : List ℚ

/-- The body of the `analyze_rds` loop for one database: same shape as the
EC2 analysis with the RDS hourly rate. -/
def analyze_rds_instance (d : RdsInstance) : ScanRecord :=
  let avg_cpu := avgOfDatapoints d.datapoints
  let est_cost := RDS_COST_PER_HOUR * HOURS_PER_MONTH
  let potential_saving := if avg_cpu < 5 then est_cost else 0
  { resourceID := d.dbInstanceIdentifier
    service := "RDS"
    resourceType := d.dbInstanceClass.getD "unknown"
    usageMetric := fmtCpu avg_cpu
    estimatedCostUSD := round2 est_cost
    potentialSavingsUSD := round2 potential_saving }

/-- Function `analyze_rds`: one record per database instance. -/
def analyze_rds (instances : List RdsInstance) : List ScanRecord :=
  instances.map analyze_rds_instance

/-- One S3 bucket as the scanner sees it: its name and the outcome of the
`list_objects_v2` pagination — `some sizes` (object sizes in bytes) on
success, `none` when the listing raises. -/
structure S3Bucket where
  name : String
  listing : Option (List ℕ)

/-- The bucket size in GB as `analyze_s3` computes it: `size_gb = 0` is
set before the `try`, so a failed listing leaves it at 0 (the exception is
swallowed by `except Exception: pass`); a successful listing sums the
object sizes and divides by `1024 ** 3`. -/
def s3SizeGb (b : S3Bucket) : ℚ :=
  match b.listing with
  | none => 0
  | some objs => (objs.sum : ℚ) / (1024 ^ 3 : ℚ)

/-- Cost line `est_cost = size_gb * S3_COST_PER_GB` for one bucket. -/
def s3EstCost (b : S3Bucket) : ℚ := s3SizeGb b * S3_COST_PER_GB

/-- Savings line `potential_saving = est_cost * 0.5 if size_gb > 1 else 0` (suggest
Glacier for large buckets). -/
def s3PotentialSaving (b : S3Bucket) : ℚ :=
  if 1 < s3SizeGb b then s3EstCost b * (1 / 2) else 0

/-- The body of the `analyze_s3` loop for one bucket; a record is emitted
whether or not the listing succeeded. -/
def analyze_s3_bucket (b : S3Bucket) : ScanRecord :=
  { resourceID := b.name
    service := "S3"
    resourceType := "Bucket"
    usageMetric := fmtSize (s3SizeGb b)
    estimatedCostUSD := round2 (s3EstCost b)
    potentialSavingsUSD := round2 (s3PotentialSaving b) }

/-- Function `analyze_s3`: one record per bucket, in bucket order. -/
def analyze_s3 (buckets : List S3Bucket) : List ScanRecord :=
  buckets.map analyze_s3_bucket

/-! ### Binary64 model of the S3 arithmetic

The rational scanner model above is exact real arithmetic.  The program
runs on IEEE-754 doubles, and for the S3 records the difference is
observable in the stored two-decimal values, so the S3 pipeline is also
modelled at the float level: every operation rounds its exact rational
result to the nearest double. -/

/-- Round to the nearest integer, ties to even (the IEEE-754 default
rounding rule, also Python's rounding rule). -/
def rte (x : ℚ) : ℤ :=
  if x - ⌊x⌋ < 1/2 then ⌊x⌋
  else if (1:ℚ)/2 < x - ⌊x⌋ then ⌊x⌋ + 1
  else if Even ⌊x⌋ then ⌊x⌋ else ⌊x⌋ + 1

/-- Round a rational to the nearest IEEE-754 binary64 value (round to
nearest, ties to even), ignoring overflow and subnormals — adequate for
the magnitudes of this development.  A nonzero value in the binade
`2^e ≤ |x| < 2^(e+1)` is scaled to a 53-bit significand, rounded, and
scaled back. -/
def fl (x : ℚ) : ℚ :=
  if x = 0 then 0
  else
    (if x < 0 then (-1 : ℚ) else 1) *
      (rte (|x| * (2:ℚ) ^ ((52:ℤ) - Int.log 2 |x|)) : ℚ) * (2:ℚ) ^ (Int.log 2 |x| - 52)

/-- The double the program's `S3_COST_PER_GB = 0.023` actually holds. -/
def S3_COST_PER_GB_F : ℚ := fl (23 / 1000)

/-- The bucket size in GB as the program's doubles hold it: 0 for a
failed listing, else the (exact) integer byte total divided by `1024**3`
in float division (one correctly-rounded operation). -/
def s3SizeGbF (b : S3Bucket) : ℚ :=
  match b.listing with
  | none => 0
  | some objs => fl ((objs.sum : ℚ) / (1024 ^ 3 : ℚ))

/-- Float-level `est_cost = size_gb * S3_COST_PER_GB`. -/
def s3EstCostF (b : S3Bucket) : ℚ := fl (s3SizeGbF b * S3_COST_PER_GB_F)

/-- Float-level `potential_saving = est_cost * 0.5 if size_gb > 1 else 0`
(the literal `0.5` is the exact double `fl (1/2)`). -/
def s3PotentialSavingF (b : S3Bucket) : ℚ :=
  if 1 < s3SizeGbF b then fl (s3EstCostF b * fl (1 / 2)) else 0

/-- Python `round(x, 2)` on a double: round `100 x` (exact value of the
double) to the nearest integer with ties to even, then take the nearest
double to the resulting two-decimal number. -/
def round2F (x : ℚ) : ℚ := fl ((rte (100 * x) : ℚ) / 100)

/-- The S3 record with its stored monetary fields computed at the float
level (the label field keeps the two-decimal rendering abstraction). -/
def analyze_s3_bucket_f (b : S3Bucket) : ScanRecord :=
  { resourceID := b.name
    service := "S3"
    resourceType := "Bucket"
    usageMetric := fmtSize (s3SizeGbF b)
    estimatedCostUSD := round2F (s3EstCostF b)
    potentialSavingsUSD := round2F (s3PotentialSavingF b) }

/-! ### Helper lemmas -/

/-- Membership in the filtered view, characterized as the conjunction of
the four (conditionally active) predicates of the filter pipeline. -/
theorem mem_applyFilters (cfg : FilterConfig) (df : List Row) (r : Row) :
    r ∈ applyFilters cfg df ↔
      r ∈ df ∧ r.service ∈ cfg.selectedServices ∧
      (cfg.onlyIdle = true → 0 < r.potentialSavings) ∧
      (0 < cfg.savingsFilter → cfg.savingsFilter ≤ r.potentialSavings) ∧
      (cfg.searchId ≠ "" → strContainsRe (cellToStr r.resourceID) cfg.searchId = true) := by
  unfold applyFilters
  by_cases h1 : cfg.onlyIdle <;> by_cases h2 : 0 < cfg.savingsFilter <;>
    by_cases h3 : cfg.searchId = "" <;>
      simp [h1, h2, h3, List.mem_filter] <;> tauto

/-- A column lookup falls back to the supplied default exactly when the
column name is absent from the header. -/
theorem getCellD_of_not_mem {h : List String} {name : String}
    (hn : name ∉ h) (cells : List Cell) (dflt : Cell) :
    getCellD h cells name dflt = dflt := by
  induction h generalizing cells with
  | nil => rfl
  | cons a as ih =>
    rw [getCellD, if_neg (fun e : a = name => hn (List.mem_cons.mpr (Or.inl e.symm)))]
    exact ih (fun hm => hn (List.mem_cons_of_mem a hm)) _

/-- A column lookup yields the default, a cell of the row, or the missing
value (for a ragged row). -/
theorem getCellD_cases (h : List String) (cells : List Cell) (name : String) (dflt : Cell) :
    getCellD h cells name dflt = dflt ∨ getCellD h cells name dflt ∈ cells ∨
      getCellD h cells name dflt = Cell.null := by
  induction h generalizing cells with
  | nil => exact Or.inl rfl
  | cons a as ih =>
    rw [getCellD]
    by_cases ha : a = name
    · rw [if_pos ha]
      cases cells with
      | nil => exact Or.inr (Or.inr rfl)
      | cons c cs => exact Or.inr (Or.inl (List.mem_cons_self c cs))
    · rw [if_neg ha]
      rcases ih cells.tail with hd | hm | hn
      · exact Or.inl hd
      · cases cells with
        | nil => simp at hm
        | cons c cs => exact Or.inr (Or.inl (List.mem_cons_of_mem c hm))
      · exact Or.inr (Or.inr hn)

/-! ### Claim theorems -/

/-- A normalized row with the given service label and potential savings;
the remaining fields are defaulted.  Used for concrete filter and sort
scenarios. -/
def exRow (svc : String) (sav : ℚ) : Row :=
  { resourceID := Cell.text "", service := Cell.text svc, resourceType := Cell.text "",
    usageMetric := Cell.text "", estimatedCost := 0, potentialSavings := sav }

/-- An input file that uses the legacy column name `EstimatedCostUSD`. -/
def legacyTable : RawTable :=
  { header := ["EstimatedCostUSD"], rows := [[Cell.num 100]] }

/-- C1 counterexample: the two loaders do NOT agree on every input.  On a
file with the legacy column `EstimatedCostUSD`, `load_csv_local` renames it
and reads the cost 100, while `load_csv_upload` performs no rename and
backfills `EstimatedCost` with 0 — so the claim that both loaders rename
the legacy columns and yield the same normalized dataset fails. -/
theorem load_local_upload_differ_on_legacy :
    load_csv_local legacyTable ≠ load_csv_upload legacyTable := by decide

/-- C1 amended: only the path-based loader renames the legacy columns; on
every input file that uses no legacy column name, the path-based and the
upload-based loader yield the same normalized dataset. -/
theorem load_local_eq_upload_of_no_legacy (t : RawTable)
    (h1 : "EstimatedCostUSD" ∉ t.header) (h2 : "PotentialSavingsUSD" ∉ t.header) :
    load_csv_local t = load_csv_upload t := by
  unfold load_csv_local load_csv_upload
  have hall : ∀ a ∈ t.header, renameLegacy a = a := by
    intro a ha
    unfold renameLegacy
    rw [if_neg (fun e : a = "EstimatedCostUSD" => h1 (e ▸ ha)),
      if_neg (fun e : a = "PotentialSavingsUSD" => h2 (e ▸ ha))]
  rw [show t.header.map renameLegacy = t.header from
    (List.map_congr_left hall).trans (List.map_id _)]

/-- C1 witness: the two loaders agree on a concrete legacy-free file. -/
theorem load_local_eq_upload_witness :
    load_csv_local { header := ["ResourceID", "EstimatedCost"],
                     rows := [[Cell.text "i-1", Cell.num 7]] } =
      load_csv_upload { header := ["ResourceID", "EstimatedCost"],
                        rows := [[Cell.text "i-1", Cell.num 7]] } :=
  load_local_eq_upload_of_no_legacy _ (by decide) (by decide)

/-- C3: the three KPIs are the sum of `EstimatedCost`, the sum of
`PotentialSavings` and the count of rows with positive savings over the
full unfiltered dataset, and are therefore identical across any two filter
configurations. -/
theorem kpis_unfiltered_filter_invariant :
    ∀ (df : List Row) (cfg cfg' : FilterConfig),
      (renderDashboard df cfg).totalCost = (df.map Row.estimatedCost).sum ∧
      (renderDashboard df cfg).totalSavings = (df.map Row.potentialSavings).sum ∧
      (renderDashboard df cfg).flaggedCount =
        (df.filter (fun r => decide (0 < r.potentialSavings))).length ∧
      (renderDashboard df cfg).totalCost = (renderDashboard df cfg').totalCost ∧
      (renderDashboard df cfg).totalSavings = (renderDashboard df cfg').totalSavings ∧
      (renderDashboard df cfg).flaggedCount = (renderDashboard df cfg').flaggedCount :=
  fun _ _ _ => ⟨rfl, rfl, rfl, rfl, rfl, rfl⟩

/-- C4: for every EC2 and RDS record, the estimated cost is the flat
hourly rate times 730; the potential savings equal the full estimated
cost exactly when the 7-day average CPU is strictly below 5% (in
particular when the metric query returned no datapoints, whose average is
taken as 0) and are 0 otherwise; average CPU 3% flags the resource,
average CPU 10% does not. -/
theorem ec2_rds_idle_savings_rule :
    ∀ (i : Ec2Instance) (d : RdsInstance),
      (analyze_ec2_instance i).estimatedCostUSD = EC2_COST_PER_HOUR * 730 ∧
      ((analyze_ec2_instance i).potentialSavingsUSD =
        if avgOfDatapoints i.datapoints < 5 then (analyze_ec2_instance i).estimatedCostUSD
        else 0) ∧
      (analyze_rds_instance d).estimatedCostUSD = RDS_COST_PER_HOUR * 730 ∧
      ((analyze_rds_instance d).potentialSavingsUSD =
        if avgOfDatapoints d.datapoints < 5 then (analyze_rds_instance d).estimatedCostUSD
        else 0) ∧
      (analyze_ec2_instance { i with datapoints := [] }).potentialSavingsUSD =
        (analyze_ec2_instance { i with datapoints := [] }).estimatedCostUSD ∧
      (analyze_ec2_instance { i with datapoints := [3] }).potentialSavingsUSD =
        (analyze_ec2_instance { i with datapoints := [3] }).estimatedCostUSD ∧
      (analyze_ec2_instance { i with datapoints := [10] }).potentialSavingsUSD = 0 ∧
      (analyze_rds_instance { d with datapoints := [3] }).potentialSavingsUSD =
        (analyze_rds_instance { d with datapoints := [3] }).estimatedCostUSD ∧
      (analyze_rds_instance { d with datapoints := [10] }).potentialSavingsUSD = 0 := by
  intro i d
  refine ⟨?_, ?_, ?_, ?_, ?_, ?_, ?_, ?_, ?_⟩
  · norm_num [analyze_ec2_instance, EC2_COST_PER_HOUR, HOURS_PER_MONTH, round2, round_eq]
  · by_cases h : avgOfDatapoints i.datapoints < 5
    · rw [if_pos h]; simp only [analyze_ec2_instance]; rw [if_pos h]
    · rw [if_neg h]; simp only [analyze_ec2_instance]; rw [if_neg h]
      norm_num [round2]
  · norm_num [analyze_rds_instance, RDS_COST_PER_HOUR, HOURS_PER_MONTH, round2, round_eq]
  · by_cases h : avgOfDatapoints d.datapoints < 5
    · rw [if_pos h]; simp only [analyze_rds_instance]; rw [if_pos h]
    · rw [if_neg h]; simp only [analyze_rds_instance]; rw [if_neg h]
      norm_num [round2]
  · simp only [analyze_ec2_instance, avgOfDatapoints]; norm_num
  · simp only [analyze_ec2_instance, avgOfDatapoints]; norm_num
  · simp only [analyze_ec2_instance, avgOfDatapoints]; norm_num [round2]
  · simp only [analyze_rds_instance, avgOfDatapoints]; norm_num
  · simp only [analyze_rds_instance, avgOfDatapoints]; norm_num [round2]

/-- A bucket whose listed objects total 0.5 GB. -/
def halfGbBucket : S3Bucket := { name := "b-small", listing := some [2 ^ 29] }

/-- A bucket whose listed objects total 5 GB. -/
def fiveGbBucket : S3Bucket := { name := "b-big", listing := some [5 * 2 ^ 30] }

/-- The binade exponent of a positive rational, characterized by the two
power bounds. -/
theorem int_log2_eq {r : ℚ} (hr : 0 < r) {z : ℤ} (h1 : (2:ℚ) ^ z ≤ r)
    (h2 : r < (2:ℚ) ^ (z + 1)) : Int.log 2 r = z := by
  have hle : z ≤ Int.log 2 r := (Int.zpow_le_iff_le_log one_lt_two hr).mp (by exact_mod_cast h1)
  have hlt : Int.log 2 r < z + 1 :=
    (Int.lt_zpow_iff_log_lt one_lt_two hr).mp (by exact_mod_cast h2)
  omega

/-- Evaluation rule for `fl` on a positive rational with known binade. -/
theorem fl_eq {x : ℚ} (hx : 0 < x) {z : ℤ} (h1 : (2:ℚ) ^ z ≤ x) (h2 : x < (2:ℚ) ^ (z + 1)) :
    fl x = (rte (x * (2:ℚ) ^ ((52:ℤ) - z)) : ℚ) * (2:ℚ) ^ (z - 52) := by
  have hlog : Int.log 2 |x| = z := by
    rw [abs_of_pos hx]; exact int_log2_eq hx h1 h2
  rw [fl, if_neg hx.ne', if_neg (not_lt.mpr hx.le), hlog, abs_of_pos hx, one_mul]

/-- Evaluation: `rte 0 = 0`. -/
theorem rte_zero : rte 0 = 0 := by
  rw [rte]; norm_num

/-- Evaluation: `fl 0 = 0`. -/
theorem fl_zero : fl 0 = 0 := by
  rw [fl, if_pos rfl]

/-- The rational 1/2 is an exact double. -/
theorem fl_half : fl (1/2 : ℚ) = 1/2 := by
  rw [fl_eq (by norm_num) (z := -1) (by norm_num) (by norm_num)]
  rw [show (1:ℚ)/2 * (2:ℚ) ^ ((52:ℤ) - (-1)) = 4503599627370496 by norm_num, rte]
  norm_num

/-- The rational 5 is an exact double. -/
theorem fl_five_val : fl (5 : ℚ) = 5 := by
  rw [fl_eq (by norm_num) (z := 2) (by norm_num) (by norm_num)]
  rw [show (5:ℚ) * (2:ℚ) ^ ((52:ℤ) - 2) = 5629499534213120 by norm_num, rte]
  norm_num

/-- The double nearest to 0.023: its significand times `2⁻⁵⁸` (strictly
below 23/1000, since the scaled significand 6629298651489370.112 rounds
down). -/
theorem s3_rate_f_val : S3_COST_PER_GB_F = 6629298651489370 / 2 ^ 58 := by
  rw [S3_COST_PER_GB_F, fl_eq (by norm_num) (z := -6) (by norm_num) (by norm_num)]
  rw [show (23:ℚ)/1000 * (2:ℚ) ^ ((52:ℤ) - (-6)) = 6629298651489370112/1000 by norm_num, rte]
  norm_num

/-- The 5 GB bucket's float size: 5368709120 bytes over `2³⁰` is exactly
the double 5. -/
theorem s3_sizeF_five : s3SizeGbF fiveGbBucket = 5 := by
  show fl ((([5 * 2 ^ 30] : List ℕ).sum : ℚ) / (1024 ^ 3 : ℚ)) = 5
  rw [show ((([5 * 2 ^ 30] : List ℕ).sum : ℚ) / (1024 ^ 3 : ℚ)) = 5 by
    simp; norm_num]
  exact fl_five_val

/-- The 0.5 GB bucket's float size is exactly the double 1/2. -/
theorem s3_sizeF_half : s3SizeGbF halfGbBucket = 1/2 := by
  show fl ((([2 ^ 29] : List ℕ).sum : ℚ) / (1024 ^ 3 : ℚ)) = 1/2
  rw [show ((([2 ^ 29] : List ℕ).sum : ℚ) / (1024 ^ 3 : ℚ)) = 1/2 by
    simp; norm_num]
  exact fl_half

/-- The 5 GB bucket's float cost: the product `5 × double(0.023)` scales
to the significand 8286623314361712.5, an exact tie broken to the even
significand — the resulting double is strictly below 0.115. -/
theorem s3_estF_five : s3EstCostF fiveGbBucket = 8286623314361712 / 2 ^ 56 := by
  rw [s3EstCostF, s3_sizeF_five, s3_rate_f_val]
  rw [show (5:ℚ) * (6629298651489370 / 2 ^ 58) = 33146493257446850 / 2 ^ 58 by norm_num,
    fl_eq (by norm_num) (z := -4) (by norm_num) (by norm_num)]
  rw [show (33146493257446850:ℚ) / 2 ^ 58 * (2:ℚ) ^ ((52:ℤ) - (-4)) =
      33146493257446850/4 by norm_num, rte]
  norm_num [Int.even_iff]

/-- The 5 GB bucket's float savings: halving the cost double is exact. -/
theorem s3_savF_five : s3PotentialSavingF fiveGbBucket = 8286623314361712 / 2 ^ 57 := by
  rw [s3PotentialSavingF, s3_sizeF_five, if_pos (by norm_num), s3_estF_five, fl_half]
  rw [show (8286623314361712 / 2 ^ 56 : ℚ) * (1/2) = 8286623314361712 / 2 ^ 57 by norm_num,
    fl_eq (by norm_num) (z := -5) (by norm_num) (by norm_num)]
  rw [show (8286623314361712:ℚ) / 2 ^ 57 * (2:ℚ) ^ ((52:ℤ) - (-5)) = 8286623314361712 by
      norm_num, rte]
  norm_num

/-- The decimal step of `round(est_cost, 2)`: 100 × the cost double is
strictly below 11.5, so it rounds to 11. -/
theorem rte_100_estF : rte (100 * ((8286623314361712:ℚ) / 2 ^ 56)) = 11 := by
  rw [show (100:ℚ) * (8286623314361712 / 2 ^ 56) = 828662331436171200 / 2 ^ 56 by norm_num,
    rte]
  norm_num

/-- The decimal step of `round(potential_saving, 2)`: 100 × the savings
double exceeds 5.5, so it rounds to 6. -/
theorem rte_100_savF : rte (100 * ((8286623314361712:ℚ) / 2 ^ 57)) = 6 := by
  rw [show (100:ℚ) * (8286623314361712 / 2 ^ 57) = 828662331436171200 / 2 ^ 57 by norm_num,
    rte]
  norm_num

/-- The double nearest to 0.11. -/
theorem fl_11_100 : fl ((11:ℚ)/100) = 7926335344172073 / 2 ^ 56 := by
  rw [fl_eq (by norm_num) (z := -4) (by norm_num) (by norm_num)]
  rw [show (11:ℚ)/100 * (2:ℚ) ^ ((52:ℤ) - (-4)) = 198158383604301824/25 by norm_num, rte]
  norm_num

/-- The double nearest to 0.06. -/
theorem fl_6_100 : fl ((6:ℚ)/100) = 8646911284551352 / 2 ^ 57 := by
  rw [fl_eq (by norm_num) (z := -5) (by norm_num) (by norm_num)]
  rw [show (6:ℚ)/100 * (2:ℚ) ^ ((52:ℤ) - (-5)) = 216172782113783808/25 by norm_num, rte]
  norm_num

/-- The 5 GB bucket's stored cost is the double 0.11. -/
theorem est_stored_five :
    round2F (s3EstCostF fiveGbBucket) = 7926335344172073 / 2 ^ 56 := by
  rw [round2F, s3_estF_five, rte_100_estF]
  rw [show (((11:ℤ):ℚ))/100 = 11/100 by norm_num]
  exact fl_11_100

/-- The 5 GB bucket's stored savings are the double 0.06. -/
theorem sav_stored_five :
    round2F (s3PotentialSavingF fiveGbBucket) = 8646911284551352 / 2 ^ 57 := by
  rw [round2F, s3_savF_five, rte_100_savF]
  rw [show (((6:ℤ):ℚ))/100 = 6/100 by norm_num]
  exact fl_6_100

/-- The 0.5 GB bucket's stored savings are 0. -/
theorem sav_stored_half : round2F (s3PotentialSavingF halfGbBucket) = 0 := by
  have h0 : s3PotentialSavingF halfGbBucket = 0 := by
    rw [s3PotentialSavingF, s3_sizeF_half, if_neg (by norm_num)]
  rw [h0, round2F, show (100:ℚ) * 0 = 0 by ring, rte_zero,
    show (((0:ℤ):ℚ))/100 = 0 by norm_num, fl_zero]

/-- C5 counterexample: computed in the program's double arithmetic, the
5 GB bucket's record stores EstimatedCost = double 0.11 and
PotentialSavings = double 0.06.  The double product `5 × 0.023` is
strictly below 0.115, so its two-decimal rounding is 0.11, while the
savings (exactly half the cost double) round up to 0.06 — and
0.06 ≠ ½ × 0.11, refuting the claimed stored-value identity
`PotentialSavings = 0.5 × EstimatedCost` for this bucket. -/
theorem s3_stored_savings_not_half_stored_cost :
    (analyze_s3_bucket_f fiveGbBucket).estimatedCostUSD = fl (11 / 100) ∧
    (analyze_s3_bucket_f fiveGbBucket).potentialSavingsUSD = fl (6 / 100) ∧
    (analyze_s3_bucket_f fiveGbBucket).potentialSavingsUSD ≠
      (1 / 2) * (analyze_s3_bucket_f fiveGbBucket).estimatedCostUSD := by
  refine ⟨?_, ?_, ?_⟩
  · show round2F (s3EstCostF fiveGbBucket) = fl (11 / 100)
    rw [est_stored_five, fl_11_100]
  · show round2F (s3PotentialSavingF fiveGbBucket) = fl (6 / 100)
    rw [sav_stored_five, fl_6_100]
  · show round2F (s3PotentialSavingF fiveGbBucket) ≠
      (1 / 2) * round2F (s3EstCostF fiveGbBucket)
    rw [sav_stored_five, est_stored_five]
    norm_num

/-- C5 amended: in the program's double arithmetic, each S3 record stores
the two-decimal rounding of the double cost `size_gb × rate`, and of the
double savings — half that cost when the size exceeds 1 GB, 0 otherwise
(the pre-rounding savings of the 5 GB bucket are exactly half its
pre-rounding cost, halving a double being exact).  The 0.5 GB bucket
stores savings 0.  The 5 GB bucket stores the doubles 0.11 and 0.06: the
savings store the two-decimal rounding of half the cost, not half of the
stored cost. -/
theorem s3_savings_rule_float :
    ∀ b : S3Bucket,
      (analyze_s3_bucket_f b).estimatedCostUSD = round2F (s3EstCostF b) ∧
      (analyze_s3_bucket_f b).potentialSavingsUSD = round2F (s3PotentialSavingF b) ∧
      s3EstCostF b = fl (s3SizeGbF b * S3_COST_PER_GB_F) ∧
      s3PotentialSavingF b =
        (if 1 < s3SizeGbF b then fl (s3EstCostF b * fl (1 / 2)) else 0) ∧
      s3PotentialSavingF fiveGbBucket = s3EstCostF fiveGbBucket * (1 / 2) ∧
      (analyze_s3_bucket_f halfGbBucket).potentialSavingsUSD = 0 ∧
      (analyze_s3_bucket_f fiveGbBucket).estimatedCostUSD = 7926335344172073 / 2 ^ 56 ∧
      (analyze_s3_bucket_f fiveGbBucket).potentialSavingsUSD = 8646911284551352 / 2 ^ 57 := by
  intro b
  refine ⟨rfl, rfl, rfl, rfl, ?_, ?_, ?_, ?_⟩
  · rw [s3_savF_five, s3_estF_five]; norm_num
  · exact sav_stored_half
  · exact est_stored_five
  · exact sav_stored_five

/-- An input file carrying a negative numeric cost value. -/
def negTable : RawTable :=
  { header := ["EstimatedCost", "PotentialSavings"],
    rows := [[Cell.num (-5), Cell.num 2]] }

/-- C6 counterexample: normalization does not make the monetary columns
non-negative — a file with `EstimatedCost = -5` normalizes to a row whose
`EstimatedCost` is still `-5`. -/
theorem normalization_admits_negative :
    ¬ (∀ r ∈ load_csv_local negTable, 0 ≤ r.estimatedCost ∧ 0 ≤ r.potentialSavings) := by
  decide

/-- A cell is non-negative when it is numeric with a non-negative value,
and vacuously otherwise. -/
def cellNonNeg : Cell → Bool
  | Cell.num q => decide (0 ≤ q)
  | Cell.text _ => true
  | Cell.null => true

/-- Numeric coercion of a looked-up monetary cell is non-negative whenever
every numeric cell of the data row is non-negative (the backfill default
is 0 and unparseable or missing values coerce to 0). -/
theorem coerceNum_getCellD_nonneg (h : List String) (cells : List Cell) (name : String)
    (hc : ∀ c ∈ cells, cellNonNeg c = true) :
    0 ≤ coerceNum (getCellD h cells name (Cell.num 0)) := by
  cases hcell : getCellD h cells name (Cell.num 0) with
  | num q =>
    rcases getCellD_cases h cells name (Cell.num 0) with hd | hm | hnull
    · rw [hcell] at hd
      injection hd with hq
      simp [coerceNum, hq]
    · rw [hcell] at hm
      have := hc _ hm
      simpa [coerceNum, cellNonNeg] using this
    · rw [hcell] at hnull
      cases hnull
  | text s => simp [coerceNum]
  | null => simp [coerceNum]

/-- C6 amended: after normalization both monetary columns are numeric,
with unparseable and missing entries coerced to 0; they are non-negative
provided every numeric cell of the input is non-negative.  (The loaders do
not clamp negative numeric input, so the unconditional non-negativity of
the original claim fails.)  Holds for both loaders. -/
theorem normalization_numeric_and_nonneg (t : RawTable)
    (hn : ∀ row ∈ t.rows, ∀ c ∈ row, cellNonNeg c = true) :
    (∀ r ∈ load_csv_local t, 0 ≤ r.estimatedCost ∧ 0 ≤ r.potentialSavings) ∧
    (∀ r ∈ load_csv_upload t, 0 ≤ r.estimatedCost ∧ 0 ≤ r.potentialSavings) := by
  constructor <;>
  · intro r hr
    obtain ⟨cells, hcells, rfl⟩ := List.mem_map.mp hr
    exact ⟨coerceNum_getCellD_nonneg _ _ _ (hn cells hcells),
      coerceNum_getCellD_nonneg _ _ _ (hn cells hcells)⟩

/-- A well-formed input file with non-negative monetary values. -/
def nonNegTable : RawTable :=
  { header := ["ResourceID", "EstimatedCost", "PotentialSavings"],
    rows := [[Cell.text "i-1", Cell.num 3, Cell.num 1],
             [Cell.text "i-2", Cell.text "oops", Cell.null]] }

/-- C6 witness: on a concrete input whose numeric cells are non-negative,
both loaders produce only non-negative monetary values. -/
theorem normalization_numeric_and_nonneg_witness :
    (∀ r ∈ load_csv_local nonNegTable, 0 ≤ r.estimatedCost ∧ 0 ≤ r.potentialSavings) ∧
    (∀ r ∈ load_csv_upload nonNegTable, 0 ≤ r.estimatedCost ∧ 0 ≤ r.potentialSavings) :=
  normalization_numeric_and_nonneg nonNegTable (by decide)

instance : IsTotal Row savingsGE :=
  ⟨fun a b => le_total b.potentialSavings a.potentialSavings⟩

instance : IsTrans Row savingsGE :=
  ⟨fun _ _ _ h1 h2 => le_trans h2 h1⟩

/-- C7: the detail table is the filtered view sorted by `PotentialSavings`
descending (a savings-descending permutation of the filtered view), the
download artifact serializes exactly that table, and sorting rows with
savings [10, 50, 0] displays them as [50, 10, 0]. -/
theorem detail_table_sorted_and_download :
    ∀ (df : List Row) (cfg : FilterConfig),
      (renderDashboard df cfg).tableRows = sortBySavingsDesc (applyFilters cfg df) ∧
      List.Sorted savingsGE (renderDashboard df cfg).tableRows ∧
      List.Perm (renderDashboard df cfg).tableRows (applyFilters cfg df) ∧
      (renderDashboard df cfg).downloadBytes =
        get_download_link (renderDashboard df cfg).tableRows ∧
      (sortBySavingsDesc [exRow "A" 10, exRow "B" 50, exRow "C" 0]).map Row.potentialSavings
        = [50, 10, 0] := by
  intro df cfg
  exact ⟨rfl, List.sorted_insertionSort savingsGE _, List.perm_insertionSort savingsGE _,
    rfl, by decide⟩

/-- C8: both loaders normalize row-wise through `mkRow`, which realizes
all six expected columns: a numeric column missing from the header is
backfilled with 0, a missing text column with the empty string, and
unparseable (string) or missing values in the two numeric columns are
coerced to 0. -/
theorem schema_backfill_coercion :
    ∀ (t : RawTable) (h : List String) (cells : List Cell),
      load_csv_local t = t.rows.map (mkRow (t.header.map renameLegacy)) ∧
      load_csv_upload t = t.rows.map (mkRow t.header) ∧
      ("ResourceID" ∉ h → (mkRow h cells).resourceID = Cell.text "") ∧
      ("Service" ∉ h → (mkRow h cells).service = Cell.text "") ∧
      ("ResourceType" ∉ h → (mkRow h cells).resourceType = Cell.text "") ∧
      ("UsageMetric" ∉ h → (mkRow h cells).usageMetric = Cell.text "") ∧
      ("EstimatedCost" ∉ h → (mkRow h cells).estimatedCost = 0) ∧
      ("PotentialSavings" ∉ h → (mkRow h cells).potentialSavings = 0) ∧
      (∀ s, getCellD h cells "EstimatedCost" (Cell.num 0) = Cell.text s →
        (mkRow h cells).estimatedCost = 0) ∧
      (getCellD h cells "EstimatedCost" (Cell.num 0) = Cell.null →
        (mkRow h cells).estimatedCost = 0) ∧
      (∀ s, getCellD h cells "PotentialSavings" (Cell.num 0) = Cell.text s →
        (mkRow h cells).potentialSavings = 0) ∧
      (getCellD h cells "PotentialSavings" (Cell.num 0) = Cell.null →
        (mkRow h cells).potentialSavings = 0) := by
  intro t h cells
  refine ⟨rfl, rfl, ?_, ?_, ?_, ?_, ?_, ?_, ?_, ?_, ?_, ?_⟩
  · intro hnm; simp [mkRow, getCellD_of_not_mem hnm]
  · intro hnm; simp [mkRow, getCellD_of_not_mem hnm]
  · intro hnm; simp [mkRow, getCellD_of_not_mem hnm]
  · intro hnm; simp [mkRow, getCellD_of_not_mem hnm]
  · intro hnm; simp [mkRow, getCellD_of_not_mem hnm, coerceNum]
  · intro hnm; simp [mkRow, getCellD_of_not_mem hnm, coerceNum]
  · intro s hs; simp [mkRow, hs, coerceNum]
  · intro hs; simp [mkRow, hs, coerceNum]
  · intro s hs; simp [mkRow, hs, coerceNum]
  · intro hs; simp [mkRow, hs, coerceNum]

/-- C8 witness: on a header carrying none of the expected columns, the
normalized row holds the backfilled defaults. -/
theorem schema_backfill_coercion_witness :
    (mkRow ["Foo"] [Cell.text "x"]).estimatedCost = 0 ∧
    (mkRow ["Foo"] [Cell.text "x"]).potentialSavings = 0 ∧
    (mkRow ["Foo"] [Cell.text "x"]).service = Cell.text "" ∧
    (mkRow ["Foo"] [Cell.text "x"]).resourceID = Cell.text "" :=
  ⟨(schema_backfill_coercion legacyTable ["Foo"] [Cell.text "x"]).2.2.2.2.2.2.1 (by decide),
   (schema_backfill_coercion legacyTable ["Foo"] [Cell.text "x"]).2.2.2.2.2.2.2.1 (by decide),
   (schema_backfill_coercion legacyTable ["Foo"] [Cell.text "x"]).2.2.2.1 (by decide),
   (schema_backfill_coercion legacyTable ["Foo"] [Cell.text "x"]).2.2.1 (by decide)⟩

/-- C9: the S3 scan emits one record per bucket in bucket order, each
record depending only on its own bucket; a bucket whose object listing
fails (the swallowed exception) is treated as size 0, so its record has
estimated cost 0 and potential savings 0, and the records of the other
buckets are unchanged. -/
theorem s3_listing_failure_swallowed :
    ∀ (buckets pre post : List S3Bucket) (b : S3Bucket), b.listing = none →
      analyze_s3 buckets = buckets.map analyze_s3_bucket ∧
      (analyze_s3 buckets).length = buckets.length ∧
      analyze_s3 (pre ++ b :: post) =
        analyze_s3 pre ++ analyze_s3_bucket b :: analyze_s3 post ∧
      analyze_s3_bucket b =
        { resourceID := b.name, service := "S3", resourceType := "Bucket",
          usageMetric := fmtSize 0, estimatedCostUSD := 0, potentialSavingsUSD := 0 } := by
  intro buckets pre post b hb
  refine ⟨rfl, List.length_map _ _, by simp [analyze_s3], ?_⟩
  simp [analyze_s3_bucket, s3EstCost, s3PotentialSaving, s3SizeGb, hb, round2]

/-- A bucket whose `list_objects_v2` pagination raises. -/
def failedBucket : S3Bucket := { name := "b-denied", listing := none }

/-- C9 witness: the failing-bucket record at a concrete bucket. -/
theorem s3_listing_failure_swallowed_witness :
    analyze_s3 [failedBucket] = [failedBucket].map analyze_s3_bucket ∧
    (analyze_s3 [failedBucket]).length = ([failedBucket] : List S3Bucket).length ∧
    analyze_s3 ([] ++ failedBucket :: []) =
      analyze_s3 [] ++ analyze_s3_bucket failedBucket :: analyze_s3 [] ∧
    analyze_s3_bucket failedBucket =
      { resourceID := failedBucket.name, service := "S3", resourceType := "Bucket",
        usageMetric := fmtSize 0, estimatedCostUSD := 0, potentialSavingsUSD := 0 } :=
  s3_listing_failure_swallowed [failedBucket] [] [] failedBucket rfl

/-- Summing a mapped value over a list splits across the partition induced
by a Boolean predicate. -/
theorem sum_map_filter_split (g : Row → ℚ) (p : Row → Bool) :
    ∀ df : List Row,
      (df.map g).sum =
        ((df.filter p).map g).sum + ((df.filter (fun x => !(p x))).map g).sum := by
  intro df
  induction df with
  | nil => simp
  | cons a l ih =>
    by_cases hp : p a <;> simp [List.filter_cons, hp, ih] <;> ring

/-- Counting rows satisfying a predicate splits across the partition
induced by another Boolean predicate. -/
theorem length_filter_split (q p : Row → Bool) :
    ∀ df : List Row,
      (df.filter q).length =
        ((df.filter p).filter q).length + ((df.filter (fun x => !(p x))).filter q).length := by
  intro df
  induction df with
  | nil => simp
  | cons a l ih =>
    by_cases hp : p a <;> by_cases hq : q a <;>
      simp [List.filter_cons, hp, hq, ih] <;> omega

/-- C10: the multi-select options contain only present (non-null) Service
values, so under any reachable selection (a subset of the options) a row
whose Service is missing is excluded from the filtered view — while such
rows still contribute to all three unfiltered KPI totals, which split as
the null-service part plus the rest. -/
theorem null_service_rows_excluded :
    ∀ (df : List Row) (cfg : FilterConfig) (r : Row),
      cfg.selectedServices ⊆ serviceOptions df → r.service = Cell.null →
      r ∉ applyFilters cfg df ∧
      Cell.null ∉ serviceOptions df ∧
      total_cost df =
        total_cost (df.filter (fun x => decide (x.service = Cell.null))) +
          total_cost (df.filter (fun x => !(decide (x.service = Cell.null)))) ∧
      total_savings df =
        total_savings (df.filter (fun x => decide (x.service = Cell.null))) +
          total_savings (df.filter (fun x => !(decide (x.service = Cell.null)))) ∧
      flagged_count df =
        flagged_count (df.filter (fun x => decide (x.service = Cell.null))) +
          flagged_count (df.filter (fun x => !(decide (x.service = Cell.null)))) := by
  intro df cfg r hsub hnull
  have hopts : Cell.null ∉ serviceOptions df := by
    simp [serviceOptions]
  refine ⟨?_, hopts, ?_, ?_, ?_⟩
  · intro hr
    have hmem := (mem_applyFilters cfg df r).mp hr
    exact hopts (hnull ▸ hsub hmem.2.1)
  · exact sum_map_filter_split Row.estimatedCost (fun x => decide (x.service = Cell.null)) df
  · exact sum_map_filter_split Row.potentialSavings (fun x => decide (x.service = Cell.null)) df
  · exact length_filter_split (fun r => decide (0 < r.potentialSavings))
      (fun x => decide (x.service = Cell.null)) df

/-- A normalized row whose `Service` value is missing. -/
def nullServiceRow : Row :=
  { resourceID := Cell.text "r0", service := Cell.null, resourceType := Cell.text "",
    usageMetric := Cell.text "", estimatedCost := 4, potentialSavings := 1 }

/-- A dataset with one missing-service row and one EC2 row. -/
def mixedDf : List Row := [nullServiceRow, exRow "EC2" 5]

/-- The all-services default selection over `mixedDf`. -/
def defaultCfg : FilterConfig :=
  { selectedServices := [Cell.text "EC2"], onlyIdle := false,
    savingsFilter := 0, searchId := "" }

/-- C10 witness: at the default all-services selection over a concrete
dataset, the missing-service row is excluded from the filtered view but
counted in the KPI totals. -/
theorem null_service_rows_excluded_witness :
    nullServiceRow ∉ applyFilters defaultCfg mixedDf ∧
    Cell.null ∉ serviceOptions mixedDf ∧
    total_cost mixedDf =
      total_cost (mixedDf.filter (fun x => decide (x.service = Cell.null))) +
        total_cost (mixedDf.filter (fun x => !(decide (x.service = Cell.null)))) ∧
    total_savings mixedDf =
      total_savings (mixedDf.filter (fun x => decide (x.service = Cell.null))) +
        total_savings (mixedDf.filter (fun x => !(decide (x.service = Cell.null)))) ∧
    flagged_count mixedDf =
      flagged_count (mixedDf.filter (fun x => decide (x.service = Cell.null))) +
        flagged_count (mixedDf.filter (fun x => !(decide (x.service = Cell.null)))) :=
  null_service_rows_excluded mixedDf defaultCfg nullServiceRow (by decide) rfl
